import Mathlib

/-!
Verification of the browser-side parcel-tracking view controller
(`static/app.js`).  The DOM elements the script queries are modelled as an
explicit record of optional element states; every handler in the script is a
pure state transformer on that record.  JSON values (used for the raw debug
view) are modelled by an inductive type together with the fragment of
`JSON.stringify(_, null, 2)` the script relies on.
-/

/-- JSON values as produced by `JSON.parse` / consumed by `JSON.stringify`.
Numbers are restricted to integers; no claim depends on float formatting. -/
inductive Json where
  | null : Json
  | bool (b : Bool) : Json
  | num (n : Int) : Json
  | str (s : String) : Json
  | arr (elems : List Json) : Json
  | obj (fields : List (String × Json)) : Json

/-- One hexadecimal digit, lower case (as in `JSON.stringify` escapes). -/
def hexDigit (n : Nat) : Char :=
  if n < 10 then Char.ofNat (48 + n) else Char.ofNat (87 + n % 16)

/-- Four-digit hexadecimal rendering used by the `\uXXXX` escape. -/
def hex4 (n : Nat) : String :=
  String.mk [hexDigit (n / 4096 % 16), hexDigit (n / 256 % 16),
             hexDigit (n / 16 % 16), hexDigit (n % 16)]

/-- Escape of a single character inside a JSON string literal. -/
def escapeChar (c : Char) : String :=
  if c = '"' then "\\\""
  else if c = '\\' then "\\\\"
  else if c = '\n' then "\\n"
  else if c = '\t' then "\\t"
  else if c = '\r' then "\\r"
  else if c = '\x08' then "\\b"
  else if c = '\x0c' then "\\f"
  else if c.toNat < 32 then "\\u" ++ hex4 c.toNat
  else String.singleton c

/-- A JSON string literal: quotes around the escaped characters. -/
def jsonQuote (s : String) : String :=
  "\"" ++ String.join (s.data.map escapeChar) ++ "\""

mutual

/-- `JSON.stringify(v, null, 2)` restricted to the values of `Json`; `ind` is
the indentation accumulated so far (the empty string at top level). -/
def Json.stringifyAt : Json → String → String
  | .null, _ => "null"
  | .bool true, _ => "true"
  | .bool false, _ => "false"
  | .num n, _ => toString n
  | .str s, _ => jsonQuote s
  | .arr [], _ => "[]"
  | .arr (j :: js), ind =>
      "[\n" ++ String.intercalate ",\n"
        (stringifyElems (j :: js) (ind ++ "  ")) ++ "\n" ++ ind ++ "]"
  | .obj [], _ => "\x7b\x7d"
  | .obj (kv :: kvs), ind =>
      "\x7b\n" ++ String.intercalate ",\n"
        (stringifyFields (kv :: kvs) (ind ++ "  ")) ++ "\n" ++ ind ++ "\x7d"

/-- The lines of an array body, each already carrying its indentation. -/
def stringifyElems : List Json → String → List String
  | [], _ => []
  | j :: js, ind => (ind ++ j.stringifyAt ind) :: stringifyElems js ind

/-- The lines of an object body, each already carrying its indentation. -/
def stringifyFields : List (String × Json) → String → List String
  | [], _ => []
  | (k, v) :: kvs, ind =>
      (ind ++ jsonQuote k ++ ": " ++ v.stringifyAt ind) :: stringifyFields kvs ind

end

/-- Top-level `JSON.stringify(v, null, 2)`. -/
def Json.stringify2 (j : Json) : String := j.stringifyAt ""

/-! ## Data model (network contract of spec section 6) -/

/-- One tracking checkpoint, as delivered in the `events` array of the
response payload.  Every field is optional. -/
structure TimelineEvent where
  date : Option String
  time : Option String
  description : Option String
  location : Option String
deriving Repr, DecidableEq

/-- The parsed tracking payload (`TrackingResult`).  Models the JSON object of
the network contract: the four display strings, the `events` array and the
opaque `raw_response` value, each independently optional. -/
structure TrackingResult where
  barcode : Option String := none
  current_status : Option String := none
  sender : Option String := none
  receiver : Option String := none
  events : Option (List TimelineEvent) := none
  raw_response : Option Json := none

/-- An optional string field rendered as JSON: omitted when absent. -/
def optField (k : String) : Option String → List (String × Json)
  | none => []
  | some s => [(k, .str s)]

/-- The JSON object corresponding to a timeline event (fields in contract
order, absent fields omitted). -/
def TimelineEvent.toJson (e : TimelineEvent) : Json :=
  .obj (optField "date" e.date ++ optField "time" e.time ++
        optField "description" e.description ++ optField "location" e.location)

/-- The JSON object a `TrackingResult` was parsed from, under the network
contract (fields in contract order, absent fields omitted). -/
def TrackingResult.toJson (d : TrackingResult) : Json :=
  .obj (optField "barcode" d.barcode ++ optField "current_status" d.current_status ++
        optField "sender" d.sender ++ optField "receiver" d.receiver ++
        (match d.events with
         | none => []
         | some es => [("events", .arr (es.map TimelineEvent.toJson))]) ++
        (match d.raw_response with
         | none => []
         | some j => [("raw_response", j)]))

/-! ## DOM model

Each element the script queries once at startup is an `Option` of its
observable state; `none` models the element being absent from the markup. -/

/-- The `#barcode` text input: its current value and whether the `has-error`
styling class is set. -/
structure BarcodeInput where
  value : String
  hasErrorClass : Bool
deriving Repr, DecidableEq

/-- An inline message region (`[data-error]` / `[data-success]`): its `hidden`
flag and text content. -/
structure MessageBox where
  hidden : Bool
  textContent : String
deriving Repr, DecidableEq

/-- The `[data-results]` panel: only its `hidden` flag is driven. -/
structure ResultsPanel where
  hidden : Bool
deriving Repr, DecidableEq

/-- The `[data-loading]` overlay: only its `hidden` flag is driven. -/
structure LoadingOverlay where
  hidden : Bool
deriving Repr, DecidableEq

/-- One rendered summary entry: its label, value and the staggered reveal
delay, recorded in hundredths of a second (`index * 0.08s`). -/
structure SummaryEntry where
  label : String
  value : String
  delayHundredths : Nat
deriving Repr, DecidableEq

/-- Observable content of the `[data-summary]` container. -/
inductive SummaryContent where
  | blank : SummaryContent
  | emptyState (title message : String) : SummaryContent
  | entries (items : List SummaryEntry) : SummaryContent
deriving Repr, DecidableEq

/-- One rendered timeline item: the four displayed texts and the staggered
reveal delay in hundredths of a second (`index * 0.06s`). -/
structure TimelineItem where
  date : String
  time : String
  description : String
  location : String
  delayHundredths : Nat
deriving Repr, DecidableEq

/-- Observable content of the `[data-timeline]` container. -/
inductive TimelineContent where
  | blank : TimelineContent
  | emptyState (title message : String) : TimelineContent
  | items (entries : List TimelineItem) : TimelineContent
deriving Repr, DecidableEq

/-- The `[data-raw]` section: its `hidden` flag and, when the nested `pre`
element exists, the text content of that `pre`. -/
structure RawSection where
  hidden : Bool
  pre : Option String
deriving Repr, DecidableEq

/-- The page state the controller reads and writes.  Each field is `none`
when the corresponding element is missing from the markup. -/
structure Dom where
  barcodeInput : Option BarcodeInput
  resultsPanel : Option ResultsPanel
  summaryContainer : Option SummaryContent
  timelineContainer : Option TimelineContent
  rawSection : Option RawSection
  errorBox : Option MessageBox
  successBox : Option MessageBox
  loadingOverlay : Option LoadingOverlay
deriving Repr, DecidableEq

/-! ## User-visible string constants of `app.js` -/

/-- Validation message for an empty tracking code. -/
def validationMessage : String := "لطفاً کد رهگیری را وارد کنید."

/-- Generic fallback when a non-2xx response carries no usable error field. -/
def serverErrorFallback : String := "امکان دریافت اطلاعات وجود ندارد."

/-- Fallback when the thrown failure is not an `Error` object. -/
def unknownErrorMessage : String := "خطای ناشناخته رخ داد."

/-- Fixed success message shown after a render. -/
def successMessage : String := "اطلاعات مرسوله با موفقیت به‌روزرسانی شد."

/-- Title of the timeline empty state. -/
def timelineEmptyTitle : String := "هنوز اطلاعاتی ثبت نشده است"

/-- Body of the timeline empty state. -/
def timelineEmptyMessage : String :=
  "پس از ثبت اولین رویداد برای مرسوله، جزئیات در این بخش نمایش داده می‌شود."

/-- Title of the summary empty state. -/
def summaryEmptyTitle : String := "اطلاعات خلاصه‌ای یافت نشد"

/-- Body of the summary empty state. -/
def summaryEmptyMessage : String :=
  "پس از ثبت جزئیات بیشتر، خلاصه وضعیت در این بخش به نمایش درخواهد آمد."

/-- Placeholder for a missing event description. -/
def unknownStatusPlaceholder : String := "وضعیت نامشخص"

/-- Placeholder for a missing event location. -/
def unknownLocationPlaceholder : String := "مکان نامشخص"

/-- The four summary labels, in the fixed order of the source. -/
def summaryLabels : List String := ["کد رهگیری", "وضعیت فعلی", "فرستنده", "گیرنده"]

/-! ## JavaScript truthiness helpers -/

/-- JS `String.prototype.trim()`: removes whitespace from both ends.  Modelled
executably over the character list (Lean's `String.trim` is equivalent but its
position-based loops do not reduce in the kernel). -/
def jsTrim (s : String) : String :=
  String.mk (((s.data.dropWhile Char.isWhitespace).reverse.dropWhile
    Char.isWhitespace).reverse)

/-- JS `o || d` for an optional string `o`: the fallback is taken when the
value is absent (`undefined`) or the empty string (both falsy). -/
def jsOr (o : Option String) (d : String) : String :=
  match o with
  | none => d
  | some s => if s.isEmpty then d else s

/-- JS `Boolean(o)` for an optional string: `false` exactly for `undefined`
and `""`. -/
def optTruthy : Option String → Bool
  | none => false
  | some s => !s.isEmpty

/-- JS `Boolean(j)` for a JSON value: `null`, `false`, `0` and `""` are
falsy; arrays and objects are always truthy. -/
def jsonTruthy : Json → Bool
  | .null => false
  | .bool b => b
  | .num n => n != 0
  | .str s => !s.isEmpty
  | .arr _ => true
  | .obj _ => true

/-! ## State presenter operations (`app.js` lines 28-56) -/

/-- `toggleLoading(state)`: sets `loadingOverlay.hidden = !state`; no-op when
the overlay element is absent. -/
def toggleLoading (state : Bool) (dom : Dom) : Dom :=
  match dom.loadingOverlay with
  | none => dom
  | some _ => { dom with loadingOverlay := some ⟨!state⟩ }

/-- `clearSuccess()`: hides and empties the success box when it exists. -/
def clearSuccess (dom : Dom) : Dom :=
  match dom.successBox with
  | none => dom
  | some _ => { dom with successBox := some ⟨true, ""⟩ }

/-- `showError(message)`: returns unchanged when the error box is absent;
otherwise writes the message, hides the box iff the message is empty, toggles
the input's `has-error` class to the message's truthiness, and — for a
non-empty message — unhides the results panel when it exists. -/
def showError (message : String) (dom : Dom) : Dom :=
  match dom.errorBox with
  | none => dom
  | some _ =>
    let dom1 := { dom with errorBox := some ⟨message.isEmpty, message⟩ }
    let dom2 :=
      match dom1.barcodeInput with
      | none => dom1
      | some input => { dom1 with barcodeInput := some ⟨input.value, !message.isEmpty⟩ }
    if message.isEmpty then dom2
    else
      match dom2.resultsPanel with
      | none => dom2
      | some _ => { dom2 with resultsPanel := some ⟨false⟩ }

/-- `showSuccess(message)`: writes the message into the success box and hides
it iff the message is empty; no-op when the box is absent. -/
def showSuccess (message : String) (dom : Dom) : Dom :=
  match dom.successBox with
  | none => dom
  | some _ => { dom with successBox := some ⟨message.isEmpty, message⟩ }

/-! ## Renderer (`app.js` lines 58-186) -/

/-- `renderEmpty()`: replaces the timeline content with the empty-state block
(fixed title and body); no-op when the container is absent. -/
def renderEmpty (dom : Dom) : Dom :=
  match dom.timelineContainer with
  | none => dom
  | some _ =>
    { dom with timelineContainer := some (.emptyState timelineEmptyTitle timelineEmptyMessage) }

/-- The candidate (label, value) pairs of the summary view, in the fixed
order of the source. -/
def summaryPairs (data : TrackingResult) : List (String × Option String) :=
  [("کد رهگیری", data.barcode),
   ("وضعیت فعلی", data.current_status),
   ("فرستنده", data.sender),
   ("گیرنده", data.receiver)]

/-- Content the summary container holds after `renderSummary(data)`: the
truthy pairs rendered in order with `index * 0.08s` reveal delays, or the
empty-state block when none survives the filter. -/
def summaryContentOf (data : TrackingResult) : SummaryContent :=
  let items := (summaryPairs data).filter (fun item => optTruthy item.2)
  if items.isEmpty then .emptyState summaryEmptyTitle summaryEmptyMessage
  else .entries (items.enum.map (fun p => ⟨p.2.1, p.2.2.getD "", p.1 * 8⟩))

/-- `renderSummary(data)`: replaces the summary container content; no-op when
the container is absent. -/
def renderSummary (data : TrackingResult) (dom : Dom) : Dom :=
  match dom.summaryContainer with
  | none => dom
  | some _ => { dom with summaryContainer := some (summaryContentOf data) }

/-- The timeline item rendered for `event` at position `index`: each text
falls back to its placeholder when absent or empty, delay `index * 0.06s`. -/
def timelineItemOf (index : Nat) (event : TimelineEvent) : TimelineItem :=
  ⟨jsOr event.date "-", jsOr event.time "-",
   jsOr event.description unknownStatusPlaceholder,
   jsOr event.location unknownLocationPlaceholder, index * 6⟩

/-- `renderTimeline(events)`: clears the container, then renders the
empty-state for an empty array and otherwise one item per event in input
order; no-op when the container is absent. -/
def renderTimeline (events : List TimelineEvent) (dom : Dom) : Dom :=
  match dom.timelineContainer with
  | none => dom
  | some _ =>
    let cleared := { dom with timelineContainer := some .blank }
    if events.isEmpty then renderEmpty cleared
    else
      { cleared with
        timelineContainer := some (.items (events.enum.map (fun p => timelineItemOf p.1 p.2))) }

/-- The value `data.raw_response || data` serialized by the raw view: the
whole payload is used when `raw_response` is absent or falsy. -/
def rawPayload (data : TrackingResult) : Json :=
  match data.raw_response with
  | none => data.toJson
  | some j => if jsonTruthy j then j else data.toJson

/-- `renderRawResponse(data)`: pretty-prints the raw payload into the `pre`
element and unhides the section; no-op when the section or its `pre` is
absent. -/
def renderRawResponse (data : TrackingResult) (dom : Dom) : Dom :=
  match dom.rawSection with
  | none => dom
  | some sec =>
    match sec.pre with
    | none => dom
    | some _ =>
      { dom with rawSection := some ⟨false, some (Json.stringify2 (rawPayload data))⟩ }

/-- `renderResult(data)`: returns unchanged when the results panel is absent;
otherwise unhides the panel, clears success and error, renders the three
views and finally shows the fixed success message. -/
def renderResult (data : TrackingResult) (dom : Dom) : Dom :=
  match dom.resultsPanel with
  | none => dom
  | some _ =>
    let dom1 := { dom with resultsPanel := some ⟨false⟩ }
    let dom2 := clearSuccess dom1
    let dom3 := showError "" dom2
    let dom4 := renderSummary data dom3
    let dom5 := renderTimeline (data.events.getD []) dom4
    let dom6 := renderRawResponse data dom5
    showSuccess successMessage dom6

/-! ## Hydration (`app.js` lines 188-198) -/

/-- `hydrateInitialState()`, parametrized by the two values `readJSONScript`
produced.  `initialResult = none` covers a missing/blank/unparsable
`initial-tracking` script (a parsed result object is always truthy);
`initialError` carries the parsed error string, `none` for the same absent
cases, and an empty string — like any falsy value — is skipped by the
`if (initialError)` guard. -/
def hydrateInitialState (initialResult : Option TrackingResult)
    (initialError : Option String) (dom : Dom) : Dom :=
  let dom1 :=
    match initialResult with
    | some data => clearSuccess (renderResult data dom)
    | none => dom
  match initialError with
  | some msg => if msg.isEmpty then dom1 else showError msg dom1
  | none => dom1

/-! ## Input listener (`app.js` lines 200-208) -/

/-- The `input` listener on the barcode field: clears the `has-error` class
when the trimmed value is empty, then clears both banners.  Only attached
when the input exists. -/
def handleBarcodeInput (dom : Dom) : Dom :=
  match dom.barcodeInput with
  | none => dom
  | some input =>
    let dom1 :=
      if (jsTrim input.value).isEmpty then
        { dom with barcodeInput := some ⟨input.value, false⟩ }
      else dom
    showError "" (clearSuccess dom1)

/-! ## Submission handler (`app.js` lines 210-247) -/

/-- Outcome of the one `fetch('/api/track')` round trip, from the handler's
point of view.  `ok` is a 2xx response whose body parsed to a contract
payload; `httpError` a non-2xx response with its parsed optional `error`
field; `transportFailure` a rejected fetch or failed body parse, carrying
the thrown `Error`'s message, or `none` when the thrown value was not an
`Error`. -/
inductive FetchOutcome where
  | ok (payload : TrackingResult)
  | httpError (errorField : Option String)
  | transportFailure (errorMessage : Option String)

/-- Result of one run of the submit handler: the final page state and
whether the network call was issued. -/
structure SubmitOutcome where
  dom : Dom
  networkCalled : Bool

/-- The `submit` handler (default navigation is suppressed first).  Clears
the success banner, trims the barcode (an absent input reads as
`undefined`, hence falsy); an empty result shows the validation message and
returns before any network activity.  Otherwise: loading on, error cleared,
the fetch outcome dispatched — render on success, error message on failure —
and, in `finally`, loading off. -/
def handleSubmit (outcome : FetchOutcome) (dom0 : Dom) : SubmitOutcome :=
  let dom := clearSuccess dom0
  let barcode :=
    match dom.barcodeInput with
    | some input => some (jsTrim input.value)
    | none => none
  if (match barcode with | none => true | some b => b.isEmpty) then
    ⟨showError validationMessage dom, false⟩
  else
    let dom1 := toggleLoading true dom
    let dom2 := showError "" dom1
    let dom3 :=
      match outcome with
      | .ok payload => renderResult payload dom2
      | .httpError errorField => showError (jsOr errorField serverErrorFallback) dom2
      | .transportFailure errorMessage =>
          showError (match errorMessage with | some m => m | none => unknownErrorMessage) dom2
    ⟨toggleLoading false dom3, true⟩

/-! ## Derived descriptions and helper lemmas -/

/-- Content the timeline container holds after `renderTimeline(events)`. -/
def timelineContentOf (events : List TimelineEvent) : TimelineContent :=
  if events.isEmpty then .emptyState timelineEmptyTitle timelineEmptyMessage
  else .items (events.enum.map (fun p => timelineItemOf p.1 p.2))

/-- Number of non-empty fields among the four summary fields, stated the way
the spec counts them: a field counts iff it holds a non-empty string. -/
def nonEmptyFieldCount (data : TrackingResult) : Nat :=
  List.countP (fun o => o.getD "" != "")
    [data.barcode, data.current_status, data.sender, data.receiver]

theorem empty_isEmpty : "".isEmpty = true := rfl

theorem isEmpty_eq_false {s : String} (h : s ≠ "") : s.isEmpty = false := by
  cases he : s.isEmpty
  · rfl
  · exact absurd ((String.isEmpty_iff s).mp he) h

theorem optTruthy_eq (o : Option String) : optTruthy o = (o.getD "" != "") := by
  cases o with
  | none => rfl
  | some s =>
    by_cases h : s = ""
    · subst h; rfl
    · simp [optTruthy, isEmpty_eq_false h, h]

theorem jsOr_isEmpty_eq_false (o : Option String) {d : String} (hd : d ≠ "") :
    (jsOr o d).isEmpty = false := by
  cases o with
  | none => exact isEmpty_eq_false hd
  | some s =>
    by_cases h : s.isEmpty
    · simp [jsOr, h, isEmpty_eq_false hd]
    · simp [jsOr, h]

theorem successMessage_ne : successMessage ≠ "" := by decide

theorem validationMessage_ne : validationMessage ≠ "" := by decide

theorem serverErrorFallback_ne : serverErrorFallback ≠ "" := by decide

theorem unknownErrorMessage_ne : unknownErrorMessage ≠ "" := by decide

/-- A page state with every element present, parametrized by the observable
state of each element (barcode value and flag, panel/raw/loading hidden
flags, view contents, banner states, `pre` text). -/
def fullDom (bv : String) (bf ph : Bool) (sc : SummaryContent) (tc : TimelineContent)
    (rh : Bool) (pc : String) (eh : Bool) (et : String) (sh : Bool) (st : String)
    (lh : Bool) : Dom :=
  ⟨some ⟨bv, bf⟩, some ⟨ph⟩, some sc, some tc, some ⟨rh, some pc⟩,
   some ⟨eh, et⟩, some ⟨sh, st⟩, some ⟨lh⟩⟩

/-- A page state with every element present, a non-blank barcode value and
stale banners, used to instantiate the theorems below. -/
def sampleDom : Dom :=
  fullDom "RB123456789IR" false true .blank .blank true "" false "stale" false "stale" true

/-- A representative event with some fields absent. -/
def sampleEvent : TimelineEvent := ⟨some "2024-01-01", none, some "Delivered", none⟩

/-- A representative payload. -/
def samplePayload : TrackingResult :=
  { barcode := some "RB123456789IR", current_status := some "delivered",
    events := some [sampleEvent], raw_response := some (.obj [("ok", .bool true)]) }

/-- `renderResult` on a page with every element present: the panel is
unhidden, both banners cleared, the three views replaced, and the success
message shown last. -/
theorem renderResult_full (data : TrackingResult) (bv : String) (bf ph : Bool)
    (sc : SummaryContent) (tc : TimelineContent) (rh : Bool) (pc : String)
    (eh : Bool) (et : String) (sh : Bool) (st : String) (lh : Bool) :
    renderResult data
      ⟨some ⟨bv, bf⟩, some ⟨ph⟩, some sc, some tc, some ⟨rh, some pc⟩,
       some ⟨eh, et⟩, some ⟨sh, st⟩, some ⟨lh⟩⟩ =
      ⟨some ⟨bv, false⟩, some ⟨false⟩, some (summaryContentOf data),
       some (timelineContentOf (data.events.getD [])),
       some ⟨false, some (Json.stringify2 (rawPayload data))⟩,
       some ⟨true, ""⟩, some ⟨false, successMessage⟩, some ⟨lh⟩⟩ := by
  cases hev : (data.events.getD []).isEmpty <;>
    simp [renderResult, clearSuccess, showError, showSuccess, renderSummary,
          renderTimeline, renderEmpty, renderRawResponse, timelineContentOf, hev,
          empty_isEmpty, isEmpty_eq_false successMessage_ne]

/-- `handleSubmit` on a page with every element present and a barcode value
that trims to a non-empty string, when the response is 2xx with a parsed
payload: the network is called, both banners end in the success
configuration, the three views are rendered and loading is off. -/
theorem handleSubmit_ok_full (payload : TrackingResult) (bv : String) (bf ph : Bool)
    (sc : SummaryContent) (tc : TimelineContent) (rh : Bool) (pc : String)
    (eh : Bool) (et : String) (sh : Bool) (st : String) (lh : Bool)
    (hbc : (jsTrim bv).isEmpty = false) :
    handleSubmit (.ok payload)
      ⟨some ⟨bv, bf⟩, some ⟨ph⟩, some sc, some tc, some ⟨rh, some pc⟩,
       some ⟨eh, et⟩, some ⟨sh, st⟩, some ⟨lh⟩⟩ =
      ⟨⟨some ⟨bv, false⟩, some ⟨false⟩, some (summaryContentOf payload),
        some (timelineContentOf (payload.events.getD [])),
        some ⟨false, some (Json.stringify2 (rawPayload payload))⟩,
        some ⟨true, ""⟩, some ⟨false, successMessage⟩, some ⟨true⟩⟩, true⟩ := by
  simp [handleSubmit, clearSuccess, toggleLoading, showError, hbc, empty_isEmpty,
        renderResult_full]

/-- `handleSubmit` on a fully-present page with a non-blank barcode, when the
response is non-2xx: the error box shows the `error` field if truthy and the
generic fallback otherwise, the input is flagged, the views are untouched and
loading is off. -/
theorem handleSubmit_httpError_full (errorField : Option String) (bv : String)
    (bf ph : Bool) (sc : SummaryContent) (tc : TimelineContent) (rh : Bool)
    (pc : String) (eh : Bool) (et : String) (sh : Bool) (st : String) (lh : Bool)
    (hbc : (jsTrim bv).isEmpty = false) :
    handleSubmit (.httpError errorField)
      ⟨some ⟨bv, bf⟩, some ⟨ph⟩, some sc, some tc, some ⟨rh, some pc⟩,
       some ⟨eh, et⟩, some ⟨sh, st⟩, some ⟨lh⟩⟩ =
      ⟨⟨some ⟨bv, true⟩, some ⟨false⟩, some sc, some tc, some ⟨rh, some pc⟩,
        some ⟨false, jsOr errorField serverErrorFallback⟩, some ⟨true, ""⟩,
        some ⟨true⟩⟩, true⟩ := by
  simp [handleSubmit, clearSuccess, toggleLoading, showError, hbc, empty_isEmpty,
        jsOr_isEmpty_eq_false errorField serverErrorFallback_ne]

/-! ## Frame lemmas: which fields each presenter operation can touch -/

theorem toggleLoading_loading (b : Bool) (dom : Dom) :
    (toggleLoading b dom).loadingOverlay =
      dom.loadingOverlay.map (fun _ => (⟨!b⟩ : LoadingOverlay)) := by
  unfold toggleLoading; cases h : dom.loadingOverlay <;> simp [h]

theorem toggleLoading_barcode (b : Bool) (dom : Dom) :
    (toggleLoading b dom).barcodeInput = dom.barcodeInput := by
  unfold toggleLoading; cases h : dom.loadingOverlay <;> simp [h]

theorem clearSuccess_loading (dom : Dom) :
    (clearSuccess dom).loadingOverlay = dom.loadingOverlay := by
  unfold clearSuccess; cases h : dom.successBox <;> simp [h]

theorem clearSuccess_barcode (dom : Dom) :
    (clearSuccess dom).barcodeInput = dom.barcodeInput := by
  unfold clearSuccess; cases h : dom.successBox <;> simp [h]

theorem showSuccess_loading (m : String) (dom : Dom) :
    (showSuccess m dom).loadingOverlay = dom.loadingOverlay := by
  unfold showSuccess; cases h : dom.successBox <;> simp [h]

theorem showError_loading (m : String) (dom : Dom) :
    (showError m dom).loadingOverlay = dom.loadingOverlay := by
  unfold showError
  cases he : dom.errorBox
  · simp [he]
  · cases hb : dom.barcodeInput <;> by_cases hm : m.isEmpty <;>
      simp [he, hb, hm] <;> cases hr : dom.resultsPanel <;> simp [hr]

theorem renderSummary_loading (d : TrackingResult) (dom : Dom) :
    (renderSummary d dom).loadingOverlay = dom.loadingOverlay := by
  unfold renderSummary; cases h : dom.summaryContainer <;> simp [h]

theorem renderEmpty_loading (dom : Dom) :
    (renderEmpty dom).loadingOverlay = dom.loadingOverlay := by
  unfold renderEmpty; cases h : dom.timelineContainer <;> simp [h]

theorem renderTimeline_loading (es : List TimelineEvent) (dom : Dom) :
    (renderTimeline es dom).loadingOverlay = dom.loadingOverlay := by
  unfold renderTimeline
  cases h : dom.timelineContainer
  · simp [h]
  · by_cases he : es.isEmpty <;> simp [h, he, renderEmpty]

theorem renderRawResponse_loading (d : TrackingResult) (dom : Dom) :
    (renderRawResponse d dom).loadingOverlay = dom.loadingOverlay := by
  unfold renderRawResponse
  cases hrs : dom.rawSection
  · simp [hrs]
  · rename_i sec
    cases hp : sec.pre <;> simp [hrs, hp]

theorem renderResult_loading (d : TrackingResult) (dom : Dom) :
    (renderResult d dom).loadingOverlay = dom.loadingOverlay := by
  unfold renderResult
  cases h : dom.resultsPanel
  · simp [h]
  · simp only [h]
    rw [showSuccess_loading, renderRawResponse_loading, renderTimeline_loading,
        renderSummary_loading, showError_loading, clearSuccess_loading]

/-! ## Claims -/

/-- C1: for every submission whose network call returns an HTTP success
status with a parseable (contract-conforming) JSON body, the handler clears
the prior error and success state, renders the summary, timeline and raw
views from the parsed payload, shows the fixed success message, and leaves
the loading indicator off. -/
theorem submit_success_renders_and_clears (payload : TrackingResult) (bv : String)
    (bf ph : Bool) (sc : SummaryContent) (tc : TimelineContent) (rh : Bool)
    (pc : String) (eh : Bool) (et : String) (sh : Bool) (st : String) (lh : Bool)
    (hbc : (jsTrim bv).isEmpty = false) :
    (handleSubmit (.ok payload) (fullDom bv bf ph sc tc rh pc eh et sh st lh)).networkCalled
        = true ∧
    (handleSubmit (.ok payload) (fullDom bv bf ph sc tc rh pc eh et sh st lh)).dom.errorBox
        = some ⟨true, ""⟩ ∧
    (handleSubmit (.ok payload) (fullDom bv bf ph sc tc rh pc eh et sh st lh)).dom.successBox
        = some ⟨false, successMessage⟩ ∧
    (handleSubmit (.ok payload) (fullDom bv bf ph sc tc rh pc eh et sh st lh)).dom.summaryContainer
        = some (summaryContentOf payload) ∧
    (handleSubmit (.ok payload) (fullDom bv bf ph sc tc rh pc eh et sh st lh)).dom.timelineContainer
        = some (timelineContentOf (payload.events.getD [])) ∧
    (handleSubmit (.ok payload) (fullDom bv bf ph sc tc rh pc eh et sh st lh)).dom.rawSection
        = some ⟨false, some (Json.stringify2 (rawPayload payload))⟩ ∧
    (handleSubmit (.ok payload) (fullDom bv bf ph sc tc rh pc eh et sh st lh)).dom.resultsPanel
        = some ⟨false⟩ ∧
    (handleSubmit (.ok payload) (fullDom bv bf ph sc tc rh pc eh et sh st lh)).dom.loadingOverlay
        = some ⟨true⟩ := by
  rw [fullDom, handleSubmit_ok_full payload bv bf ph sc tc rh pc eh et sh st lh hbc]
  exact ⟨rfl, rfl, rfl, rfl, rfl, rfl, rfl, rfl⟩

/-- Witness for C1 at a concrete page and payload. -/
theorem submit_success_renders_and_clears_witness :
    (handleSubmit (.ok samplePayload) sampleDom).networkCalled = true ∧
    (handleSubmit (.ok samplePayload) sampleDom).dom.successBox
        = some ⟨false, successMessage⟩ ∧
    (handleSubmit (.ok samplePayload) sampleDom).dom.errorBox = some ⟨true, ""⟩ := by
  have h := submit_success_renders_and_clears samplePayload "RB123456789IR" false true
    .blank .blank true "" false "stale" false "stale" true (by decide)
  exact ⟨h.1, h.2.2.1, h.2.1⟩

/-- C2: a submission whose barcode value trims to the empty string issues no
network call, shows the validation message, and its result is independent of
whatever the network would have answered. -/
theorem submit_blank_barcode_is_local (outcome : FetchOutcome) (bv : String)
    (bf ph : Bool) (sc : SummaryContent) (tc : TimelineContent) (rh : Bool)
    (pc : String) (eh : Bool) (et : String) (sh : Bool) (st : String) (lh : Bool)
    (hbc : (jsTrim bv).isEmpty = true) :
    (handleSubmit outcome (fullDom bv bf ph sc tc rh pc eh et sh st lh)).networkCalled
        = false ∧
    (handleSubmit outcome (fullDom bv bf ph sc tc rh pc eh et sh st lh)).dom.errorBox
        = some ⟨false, validationMessage⟩ ∧
    (∀ outcome', handleSubmit outcome (fullDom bv bf ph sc tc rh pc eh et sh st lh)
        = handleSubmit outcome' (fullDom bv bf ph sc tc rh pc eh et sh st lh)) := by
  refine ⟨?_, ?_, ?_⟩ <;>
    simp [fullDom, handleSubmit, clearSuccess, showError, hbc,
          isEmpty_eq_false validationMessage_ne]

/-- Witness for C2 at a whitespace-only barcode. -/
theorem submit_blank_barcode_is_local_witness :
    (handleSubmit (.ok samplePayload)
        (fullDom "   " false true .blank .blank true "" false "stale" false "stale" true)).networkCalled
      = false ∧
    (handleSubmit (.ok samplePayload)
        (fullDom "   " false true .blank .blank true "" false "stale" false "stale" true)).dom.errorBox
      = some ⟨false, validationMessage⟩ := by
  have h := submit_blank_barcode_is_local (.ok samplePayload) "   " false true
    .blank .blank true "" false "stale" false "stale" true (by decide)
  exact ⟨h.1, h.2.1⟩

/-- C3 counterexample: a non-2xx response whose parsed body is
`\x7b"error": ""\x7d` has the server-supplied error field present, yet the
error region shows the generic fallback message instead of that (empty)
field — and the fallback differs from the field. -/
theorem submit_empty_error_field_shows_fallback :
    (handleSubmit (.httpError (some "")) sampleDom).dom.errorBox
        = some ⟨false, serverErrorFallback⟩ ∧
    serverErrorFallback ≠ "" := by
  exact ⟨by decide, by decide⟩

/-- C3 amended: on a non-2xx response the error region shows exactly the
server-supplied error field when it is present *and non-empty*, and the
generic fallback when it is absent or empty; the barcode input is flagged
and the loading indicator is off afterward. -/
theorem submit_http_error_reporting (errorField : Option String) (bv : String)
    (bf ph : Bool) (sc : SummaryContent) (tc : TimelineContent) (rh : Bool)
    (pc : String) (eh : Bool) (et : String) (sh : Bool) (st : String) (lh : Bool)
    (hbc : (jsTrim bv).isEmpty = false) :
    (handleSubmit (.httpError errorField) (fullDom bv bf ph sc tc rh pc eh et sh st lh)).networkCalled
        = true ∧
    (∀ s, errorField = some s → s ≠ "" →
      (handleSubmit (.httpError errorField) (fullDom bv bf ph sc tc rh pc eh et sh st lh)).dom.errorBox
        = some ⟨false, s⟩) ∧
    ((errorField = none ∨ errorField = some "") →
      (handleSubmit (.httpError errorField) (fullDom bv bf ph sc tc rh pc eh et sh st lh)).dom.errorBox
        = some ⟨false, serverErrorFallback⟩) ∧
    (handleSubmit (.httpError errorField) (fullDom bv bf ph sc tc rh pc eh et sh st lh)).dom.barcodeInput
        = some ⟨bv, true⟩ ∧
    (handleSubmit (.httpError errorField) (fullDom bv bf ph sc tc rh pc eh et sh st lh)).dom.loadingOverlay
        = some ⟨true⟩ := by
  rw [fullDom, handleSubmit_httpError_full errorField bv bf ph sc tc rh pc eh et sh st lh hbc]
  refine ⟨rfl, ?_, ?_, rfl, rfl⟩
  · intro s hs hne
    simp [hs, jsOr, isEmpty_eq_false hne]
  · rintro (h | h) <;> simp [h, jsOr, empty_isEmpty]

/-- Witness for the amended C3 at a concrete page and error field. -/
theorem submit_http_error_reporting_witness :
    (handleSubmit (.httpError (some "not found")) sampleDom).dom.errorBox
        = some ⟨false, "not found"⟩ ∧
    (handleSubmit (.httpError (some "not found")) sampleDom).dom.loadingOverlay
        = some ⟨true⟩ := by
  have h := submit_http_error_reporting (some "not found") "RB123456789IR" false true
    .blank .blank true "" false "stale" false "stale" true (by decide)
  exact ⟨h.2.1 "not found" rfl (by decide), h.2.2.2.2⟩

/-- C4 counterexample: a submission taken while the loading overlay is
visible (reachable, since a previous request may still be in flight) that
fails local validation returns with the overlay still visible — the
validation exit path does not turn the loading indicator off. -/
theorem validation_exit_leaves_loading_visible :
    (handleSubmit (.ok samplePayload)
        (fullDom "   " false true .blank .blank true "" false "stale" false "stale" false)).dom.loadingOverlay
      = some ⟨false⟩ ∧
    (handleSubmit (.ok samplePayload)
        (fullDom "   " false true .blank .blank true "" false "stale" false "stale" false)).networkCalled
      = false := by
  exact ⟨by decide, by decide⟩

/-- C4 amended: whatever the page state, on the success, server-error and
transport-failure exits of the submission handler the loading indicator is
unconditionally turned off; on the local-validation exit (blank or absent
barcode field) it is left exactly as it was — hence off whenever it was off
at submission start. -/
theorem submit_loading_indicator (outcome : FetchOutcome) (dom : Dom)
    (lo : LoadingOverlay) (hlo : dom.loadingOverlay = some lo) :
    (∀ input, dom.barcodeInput = some input → (jsTrim input.value).isEmpty = false →
      (handleSubmit outcome dom).dom.loadingOverlay = some ⟨true⟩) ∧
    (∀ input, dom.barcodeInput = some input → (jsTrim input.value).isEmpty = true →
      (handleSubmit outcome dom).dom.loadingOverlay = some lo) ∧
    (dom.barcodeInput = none →
      (handleSubmit outcome dom).dom.loadingOverlay = some lo) := by
  have hcb := clearSuccess_barcode dom
  refine ⟨?_, ?_, ?_⟩
  · intro input hbi htrim
    cases outcome <;>
      simp [handleSubmit, hcb, hbi, htrim, toggleLoading_loading,
            renderResult_loading, showError_loading, clearSuccess_loading, hlo]
  · intro input hbi htrim
    simp [handleSubmit, hcb, hbi, htrim, showError_loading, clearSuccess_loading, hlo]
  · intro hbi
    simp [handleSubmit, hcb, hbi, showError_loading, clearSuccess_loading, hlo]

/-- Witness for the amended C4: both branches at concrete pages. -/
theorem submit_loading_indicator_witness :
    (handleSubmit (.transportFailure none) sampleDom).dom.loadingOverlay
        = some ⟨true⟩ ∧
    (handleSubmit (.ok samplePayload)
        (fullDom "   " false true .blank .blank true "" false "stale" false "stale" false)).dom.loadingOverlay
      = some ⟨false⟩ := by
  refine ⟨?_, ?_⟩
  · exact (submit_loading_indicator (.transportFailure none) sampleDom ⟨true⟩ rfl).1
      ⟨"RB123456789IR", false⟩ rfl (by decide)
  · exact (submit_loading_indicator (.ok samplePayload)
      (fullDom "   " false true .blank .blank true "" false "stale" false "stale" false)
      ⟨false⟩ rfl).2.1 ⟨"   ", false⟩ rfl (by decide)

/-- Mapping a function of the payload over an enumerated list forgets the
indices. -/
theorem enum_map_comp_snd {α β : Type} (l : List α) (g : α → β) :
    l.enum.map (fun p => g p.2) = l.map g := by
  conv_rhs => rw [← List.enumFrom_map_snd 0 l]
  rw [List.map_map]
  rfl

/-- C5: the summary view shows the empty-state block exactly when none of the
four fields `barcode`, `current_status`, `sender`, `receiver` is a non-empty
string, and otherwise exactly one entry per non-empty field, keeping the
fixed field order (labels form a sublist of the label order and each entry
carries its own field's value). -/
theorem summary_entry_count (data : TrackingResult) (dom : Dom)
    (sc : SummaryContent) (hsc : dom.summaryContainer = some sc) :
    (nonEmptyFieldCount data = 0 →
      (renderSummary data dom).summaryContainer =
        some (.emptyState summaryEmptyTitle summaryEmptyMessage)) ∧
    (nonEmptyFieldCount data ≠ 0 → ∃ l,
      (renderSummary data dom).summaryContainer = some (.entries l) ∧
      l.length = nonEmptyFieldCount data ∧
      List.Sublist (l.map SummaryEntry.label) summaryLabels ∧
      List.Sublist (l.map (fun e => (e.label, some e.value))) (summaryPairs data)) := by
  have hcount : ((summaryPairs data).filter (fun it => optTruthy it.2)).length
      = nonEmptyFieldCount data := by
    simp only [← List.countP_eq_length_filter, nonEmptyFieldCount]
    rw [show [data.barcode, data.current_status, data.sender, data.receiver]
        = (summaryPairs data).map Prod.snd from rfl, List.countP_map]
    simp only [optTruthy_eq]
    rfl
  have hout : (renderSummary data dom).summaryContainer
      = some (summaryContentOf data) := by
    simp [renderSummary, hsc]
  constructor
  · intro h0
    have hnil : (summaryPairs data).filter (fun it => optTruthy it.2) = [] :=
      List.length_eq_zero.mp (hcount.trans h0)
    rw [hout]
    simp [summaryContentOf, hnil]
  · intro hne
    have hnnil : ((summaryPairs data).filter (fun it => optTruthy it.2)).isEmpty
        = false := by
      cases hf : (summaryPairs data).filter (fun it => optTruthy it.2) with
      | nil => exact absurd (by rw [← hcount, hf]; rfl) hne
      | cons a as => rfl
    refine ⟨((summaryPairs data).filter (fun it => optTruthy it.2)).enum.map
      (fun p => ⟨p.2.1, p.2.2.getD "", p.1 * 8⟩), ?_, ?_, ?_, ?_⟩
    · rw [hout]
      simp [summaryContentOf, hnnil]
    · simp [hcount]
    · rw [show (((summaryPairs data).filter (fun it => optTruthy it.2)).enum.map
          (fun p => (⟨p.2.1, p.2.2.getD "", p.1 * 8⟩ : SummaryEntry))).map SummaryEntry.label
          = ((summaryPairs data).filter (fun it => optTruthy it.2)).enum.map
            (fun p => p.2.1) from by rw [List.map_map]; rfl]
      rw [show (fun (p : Nat × (String × Option String)) => p.2.1)
          = (fun p : Nat × (String × Option String) => (fun it : String × Option String => it.1) p.2) from rfl,
        enum_map_comp_snd]
      rw [show summaryLabels = (summaryPairs data).map Prod.fst from rfl]
      exact (List.filter_sublist _).map _
    · rw [show (((summaryPairs data).filter (fun it => optTruthy it.2)).enum.map
          (fun p => (⟨p.2.1, p.2.2.getD "", p.1 * 8⟩ : SummaryEntry))).map
            (fun e => (e.label, some e.value))
          = ((summaryPairs data).filter (fun it => optTruthy it.2)).enum.map
            (fun p => ((fun it : String × Option String => (it.1, some (it.2.getD ""))) p.2))
          from by rw [List.map_map]; rfl,
        enum_map_comp_snd ((summaryPairs data).filter (fun it => optTruthy it.2))
          (fun it : String × Option String => (it.1, some (it.2.getD "")))]
      have hid : ((summaryPairs data).filter (fun it => optTruthy it.2)).map
          (fun it : String × Option String => (it.1, some (it.2.getD "")))
          = (summaryPairs data).filter (fun it => optTruthy it.2) := by
        rw [List.map_congr_left ?_, List.map_id]
        intro a ha
        have hta : optTruthy a.2 = true := (List.mem_filter.mp ha).2
        cases hv : a.2 with
        | none => rw [hv] at hta; exact absurd hta (by simp [optTruthy])
        | some s =>
          simp only [hv, Option.getD_some, id_eq]
          rw [← hv]
      rw [hid]
      exact List.filter_sublist _

/-- Witness for C5 at a concrete payload with two non-empty fields. -/
theorem summary_entry_count_witness :
    nonEmptyFieldCount samplePayload = 2 ∧
    ∃ l, (renderSummary samplePayload sampleDom).summaryContainer
        = some (.entries l) ∧ l.length = nonEmptyFieldCount samplePayload := by
  refine ⟨by decide, ?_⟩
  obtain ⟨l, h1, h2, -, -⟩ :=
    (summary_entry_count samplePayload sampleDom .blank (by decide)).2 (by decide)
  exact ⟨l, h1, h2⟩

/-- C6: the timeline shows the empty-state block when `events` is absent or
empty; otherwise it shows exactly one item per event, in the exact order
received, each of date, time, description and location independently falling
back to its placeholder when the event lacks it. -/
theorem timeline_items_in_order (eventsOpt : Option (List TimelineEvent)) (dom : Dom)
    (tc : TimelineContent) (htc : dom.timelineContainer = some tc) :
    ((eventsOpt = none ∨ eventsOpt = some []) →
      (renderTimeline (eventsOpt.getD []) dom).timelineContainer =
        some (.emptyState timelineEmptyTitle timelineEmptyMessage)) ∧
    (∀ es, eventsOpt = some es → es ≠ [] → ∃ l,
      (renderTimeline (eventsOpt.getD []) dom).timelineContainer = some (.items l) ∧
      l.length = es.length ∧
      (∀ i (hi : i < l.length) (hi' : i < es.length),
        l.get ⟨i, hi⟩ = timelineItemOf i (es.get ⟨i, hi'⟩) ∧
        ((es.get ⟨i, hi'⟩).date = none → (l.get ⟨i, hi⟩).date = "-") ∧
        ((es.get ⟨i, hi'⟩).time = none → (l.get ⟨i, hi⟩).time = "-") ∧
        ((es.get ⟨i, hi'⟩).description = none →
          (l.get ⟨i, hi⟩).description = unknownStatusPlaceholder) ∧
        ((es.get ⟨i, hi'⟩).location = none →
          (l.get ⟨i, hi⟩).location = unknownLocationPlaceholder))) := by
  constructor
  · rintro (h | h) <;> subst h <;> simp [renderTimeline, renderEmpty, htc]
  · intro es hes hne
    subst hes
    have hne' : (es : List TimelineEvent).isEmpty = false := by
      cases es with
      | nil => exact absurd rfl hne
      | cons a as => rfl
    refine ⟨es.enum.map (fun p => timelineItemOf p.1 p.2), ?_, ?_, ?_⟩
    · simp [renderTimeline, htc, hne']
    · simp
    · intro i hi hi'
      have hget : (es.enum.map (fun p => timelineItemOf p.1 p.2)).get ⟨i, hi⟩
          = timelineItemOf i (es.get ⟨i, hi'⟩) := by
        simp [List.get_eq_getElem, List.getElem_map, List.enum, List.getElem_enumFrom]
      refine ⟨hget, ?_, ?_, ?_, ?_⟩ <;> intro h <;> rw [hget] <;>
        rw [List.get_eq_getElem] at h <;> simp [timelineItemOf, jsOr, h]

/-- Witness for C6 at a concrete single-event list. -/
theorem timeline_items_in_order_witness :
    ∃ l, (renderTimeline ((some [sampleEvent] : Option (List TimelineEvent)).getD [])
        sampleDom).timelineContainer = some (.items l) ∧ l.length = 1 := by
  obtain ⟨l, h1, h2, -⟩ :=
    (timeline_items_in_order (some [sampleEvent]) sampleDom .blank (by decide)).2
      [sampleEvent] rfl (by decide)
  exact ⟨l, h1, h2⟩

/-- A payload whose `raw_response` field is present but holds JSON `null`. -/
def nullRawPayload : TrackingResult := { raw_response := some Json.null }

/-- C7 counterexample: with `raw_response` present but equal to JSON `null`,
the panel shows the serialization of the whole result — not the
serialization of `raw_response` (which would be `"null"`) — so the fallback
is not taken *exactly* when `raw_response` is absent. -/
theorem raw_view_falsy_raw_response_falls_back :
    nullRawPayload.raw_response = some Json.null ∧
    (renderRawResponse nullRawPayload sampleDom).rawSection
        = some ⟨false, some "\x7b\n  \"raw_response\": null\n\x7d"⟩ ∧
    "\x7b\n  \"raw_response\": null\n\x7d" ≠ Json.stringify2 Json.null := by
  exact ⟨rfl, by decide, by decide⟩

/-- C7 amended: the raw view pretty-prints (2-space indent) `raw_response`
when it is present and truthy, falling back to the whole result when
`raw_response` is absent *or falsy* (e.g. JSON `null`), writes it into the
`pre` element unmodified, and unhides the panel. -/
theorem raw_view_serialization (data : TrackingResult) (dom : Dom)
    (rh : Bool) (pc : String) (hrs : dom.rawSection = some ⟨rh, some pc⟩) :
    (renderRawResponse data dom).rawSection
        = some ⟨false, some (Json.stringify2 (rawPayload data))⟩ ∧
    (∀ j, data.raw_response = some j → jsonTruthy j = true → rawPayload data = j) ∧
    ((data.raw_response = none ∨ data.raw_response = some Json.null) →
      rawPayload data = data.toJson) := by
  refine ⟨?_, ?_, ?_⟩
  · simp [renderRawResponse, hrs]
  · intro j hj ht
    simp [rawPayload, hj, ht]
  · rintro (h | h) <;> simp [rawPayload, h, jsonTruthy]

/-- Witness for the amended C7 at a concrete payload with a truthy
`raw_response`. -/
theorem raw_view_serialization_witness :
    (renderRawResponse samplePayload sampleDom).rawSection
        = some ⟨false, some (Json.stringify2 (rawPayload samplePayload))⟩ ∧
    rawPayload samplePayload = Json.obj [("ok", Json.bool true)] := by
  have h := raw_view_serialization samplePayload sampleDom true "" (by decide)
  exact ⟨h.1, h.2.1 (Json.obj [("ok", Json.bool true)]) rfl rfl⟩

/-- C8: hydrating with a valid `initial-tracking` payload renders the three
views exactly as a live successful submission of the same payload would
(same render path), unhides the panel, but leaves the success banner hidden
and empty afterward. -/
theorem hydrate_renders_without_success_banner (payload : TrackingResult)
    (bv : String) (bf ph : Bool) (sc : SummaryContent) (tc : TimelineContent)
    (rh : Bool) (pc : String) (eh : Bool) (et : String) (sh : Bool) (st : String)
    (lh : Bool) (hbc : (jsTrim bv).isEmpty = false) :
    (hydrateInitialState (some payload) none (fullDom bv bf ph sc tc rh pc eh et sh st lh)).summaryContainer
        = (handleSubmit (.ok payload) (fullDom bv bf ph sc tc rh pc eh et sh st lh)).dom.summaryContainer ∧
    (hydrateInitialState (some payload) none (fullDom bv bf ph sc tc rh pc eh et sh st lh)).timelineContainer
        = (handleSubmit (.ok payload) (fullDom bv bf ph sc tc rh pc eh et sh st lh)).dom.timelineContainer ∧
    (hydrateInitialState (some payload) none (fullDom bv bf ph sc tc rh pc eh et sh st lh)).rawSection
        = (handleSubmit (.ok payload) (fullDom bv bf ph sc tc rh pc eh et sh st lh)).dom.rawSection ∧
    (hydrateInitialState (some payload) none (fullDom bv bf ph sc tc rh pc eh et sh st lh)).summaryContainer
        = some (summaryContentOf payload) ∧
    (hydrateInitialState (some payload) none (fullDom bv bf ph sc tc rh pc eh et sh st lh)).timelineContainer
        = some (timelineContentOf (payload.events.getD [])) ∧
    (hydrateInitialState (some payload) none (fullDom bv bf ph sc tc rh pc eh et sh st lh)).rawSection
        = some ⟨false, some (Json.stringify2 (rawPayload payload))⟩ ∧
    (hydrateInitialState (some payload) none (fullDom bv bf ph sc tc rh pc eh et sh st lh)).resultsPanel
        = some ⟨false⟩ ∧
    (hydrateInitialState (some payload) none (fullDom bv bf ph sc tc rh pc eh et sh st lh)).successBox
        = some ⟨true, ""⟩ := by
  rw [fullDom, show hydrateInitialState (some payload) none
        (⟨some ⟨bv, bf⟩, some ⟨ph⟩, some sc, some tc, some ⟨rh, some pc⟩,
          some ⟨eh, et⟩, some ⟨sh, st⟩, some ⟨lh⟩⟩ : Dom)
      = clearSuccess (renderResult payload
        ⟨some ⟨bv, bf⟩, some ⟨ph⟩, some sc, some tc, some ⟨rh, some pc⟩,
         some ⟨eh, et⟩, some ⟨sh, st⟩, some ⟨lh⟩⟩) from rfl,
    renderResult_full, handleSubmit_ok_full payload bv bf ph sc tc rh pc eh et sh st lh hbc]
  exact ⟨rfl, rfl, rfl, rfl, rfl, rfl, rfl, rfl⟩

/-- Witness for C8 at a concrete page and payload. -/
theorem hydrate_renders_without_success_banner_witness :
    (hydrateInitialState (some samplePayload) none sampleDom).successBox
        = some ⟨true, ""⟩ ∧
    (hydrateInitialState (some samplePayload) none sampleDom).summaryContainer
        = some (summaryContentOf samplePayload) := by
  have h := hydrate_renders_without_success_banner samplePayload "RB123456789IR"
    false true .blank .blank true "" false "stale" false "stale" true (by decide)
  exact ⟨h.2.2.2.2.2.2.2, h.2.2.2.1⟩

/-- `sampleDom` with the results panel removed from the markup. -/
def noPanelDom : Dom := { sampleDom with resultsPanel := none }

/-- C9 counterexample: the two pages below differ only in the presence of the
results panel, yet after the same successful submission the page without the
panel shows no success banner (and no rendered summary) while the full page
shows the success message — absence of the results panel changes the
success-banner feature, not only the results-panel feature. -/
theorem absent_panel_suppresses_success_banner :
    noPanelDom = { sampleDom with resultsPanel := none } ∧
    (handleSubmit (.ok samplePayload) noPanelDom).dom.successBox = some ⟨true, ""⟩ ∧
    (handleSubmit (.ok samplePayload) noPanelDom).dom.summaryContainer = some .blank ∧
    (handleSubmit (.ok samplePayload) sampleDom).dom.successBox
        = some ⟨false, successMessage⟩ := by
  exact ⟨rfl, by decide, by decide, by decide⟩

/-- C9 amended: absence of the loading overlay, success box, error box,
summary container, timeline container, raw section or its `pre` each makes
the operation that writes that element a complete no-op on the page state
(so every other element is untouched and nothing fails); absence of the
results panel, however, makes the whole `renderResult` a no-op, which on a
successful submission also suppresses the summary, timeline, raw and
success-banner updates. -/
theorem absent_element_feature_noop :
    (∀ dom b, dom.loadingOverlay = none → toggleLoading b dom = dom) ∧
    (∀ dom, dom.successBox = none → clearSuccess dom = dom) ∧
    (∀ dom m, dom.successBox = none → showSuccess m dom = dom) ∧
    (∀ dom m, dom.errorBox = none → showError m dom = dom) ∧
    (∀ dom d, dom.summaryContainer = none → renderSummary d dom = dom) ∧
    (∀ dom es, dom.timelineContainer = none → renderTimeline es dom = dom) ∧
    (∀ dom d, dom.rawSection = none → renderRawResponse d dom = dom) ∧
    (∀ dom d sec, dom.rawSection = some sec → sec.pre = none →
      renderRawResponse d dom = dom) ∧
    (∀ dom d, dom.resultsPanel = none → renderResult d dom = dom) := by
  refine ⟨?_, ?_, ?_, ?_, ?_, ?_, ?_, ?_, ?_⟩
  · intro dom b h; simp [toggleLoading, h]
  · intro dom h; simp [clearSuccess, h]
  · intro dom m h; simp [showSuccess, h]
  · intro dom m h; simp [showError, h]
  · intro dom d h; simp [renderSummary, h]
  · intro dom es h; simp [renderTimeline, h]
  · intro dom d h; simp [renderRawResponse, h]
  · intro dom d sec h hp; simp [renderRawResponse, h, hp]
  · intro dom d h; simp [renderResult, h]

/-- Witness for the amended C9: `renderResult` is a no-op on a page without
the results panel. -/
theorem absent_element_feature_noop_witness :
    renderResult samplePayload noPanelDom = noPanelDom ∧
    toggleLoading true { sampleDom with loadingOverlay := none }
        = { sampleDom with loadingOverlay := none } := by
  exact ⟨absent_element_feature_noop.2.2.2.2.2.2.2.2 noPanelDom samplePayload rfl,
         absent_element_feature_noop.1 { sampleDom with loadingOverlay := none } true rfl⟩

/-- C10 counterexample: both hydration payloads are present, but the
`initial-error` payload parsed to the empty string: the error branch is
skipped — the error banner stays hidden and empty and the input is not
flagged — so the error payload takes no effect. -/
theorem hydrate_empty_error_payload_ignored :
    (hydrateInitialState (some samplePayload) (some "") sampleDom).errorBox
        = some ⟨true, ""⟩ ∧
    (hydrateInitialState (some samplePayload) (some "") sampleDom).barcodeInput
        = some ⟨"RB123456789IR", false⟩ := by
  exact ⟨by decide, by decide⟩

/-- C10 amended: when both hydration payloads are present and the error
payload is a *non-empty* string, both take effect: the result is rendered
first through the full render path, then the error is shown on top of it —
error banner visible with that message, input flagged, success banner hidden,
all three views rendered and the panel visible. -/
theorem hydrate_result_then_error (payload : TrackingResult) (msg : String)
    (bv : String) (bf ph : Bool) (sc : SummaryContent) (tc : TimelineContent)
    (rh : Bool) (pc : String) (eh : Bool) (et : String) (sh : Bool) (st : String)
    (lh : Bool) (hmsg : msg.isEmpty = false) :
    hydrateInitialState (some payload) (some msg)
        (fullDom bv bf ph sc tc rh pc eh et sh st lh) =
      ⟨some ⟨bv, true⟩, some ⟨false⟩, some (summaryContentOf payload),
       some (timelineContentOf (payload.events.getD [])),
       some ⟨false, some (Json.stringify2 (rawPayload payload))⟩,
       some ⟨false, msg⟩, some ⟨true, ""⟩, some ⟨lh⟩⟩ := by
  rw [fullDom, show hydrateInitialState (some payload) (some msg)
        (⟨some ⟨bv, bf⟩, some ⟨ph⟩, some sc, some tc, some ⟨rh, some pc⟩,
          some ⟨eh, et⟩, some ⟨sh, st⟩, some ⟨lh⟩⟩ : Dom)
      = (if msg.isEmpty then clearSuccess (renderResult payload
          ⟨some ⟨bv, bf⟩, some ⟨ph⟩, some sc, some tc, some ⟨rh, some pc⟩,
           some ⟨eh, et⟩, some ⟨sh, st⟩, some ⟨lh⟩⟩)
         else showError msg (clearSuccess (renderResult payload
          ⟨some ⟨bv, bf⟩, some ⟨ph⟩, some sc, some tc, some ⟨rh, some pc⟩,
           some ⟨eh, et⟩, some ⟨sh, st⟩, some ⟨lh⟩⟩))) from rfl,
    renderResult_full]
  simp [hmsg, clearSuccess, showError]

/-- Witness for the amended C10 at a concrete page, payload and message. -/
theorem hydrate_result_then_error_witness :
    (hydrateInitialState (some samplePayload) (some "bad code") sampleDom).errorBox
        = some ⟨false, "bad code"⟩ ∧
    (hydrateInitialState (some samplePayload) (some "bad code") sampleDom).successBox
        = some ⟨true, ""⟩ := by
  have h := hydrate_result_then_error samplePayload "bad code" "RB123456789IR"
    false true .blank .blank true "" false "stale" false "stale" true (by decide)
  rw [show sampleDom = fullDom "RB123456789IR" false true .blank .blank true ""
        false "stale" false "stale" true from rfl, h]
  exact ⟨rfl, rfl⟩
